import Mathlib

/-!
Verification development for the Inlogic industrial gateway runtime.

The definitions below are a shallow embedding of the Python source:

* `modulos/logger.py` — ring buffer of log records and the `get_recent_logs`
  query;
* `ia/gerenciador.py` — the cognitive policy gate `validar_escrita`;
* `modulos/sistema.py` — the supervisor: per-device write queues
  (`manager.Queue()`), the tag routing map, `escrever_valor_tag`,
  `escrever_lote_driver`, and the driver-class selection of `iniciar_drivers`;
* `servidor/servidor.py` — the `POST /api/escrever` handler;
* `driver/modbus_driver_process.py`, `driver/controllogix_driver_process.py`,
  `driver/mqtt_driver_process.py`, `driver/sql_driver_process.py` — the driver
  worker run loop (status and tag-quality updates) and the per-data-kind
  Modbus register access plans.

Python dictionaries are embedded as association lists, machine integers as
`Nat`/`Int` with explicit reductions modulo 2^16 / 2^32 where register width
matters, wall-clock timestamps as an explicit `String` parameter, and the
IEEE-754 bit pattern of a 32-bit float as the `Nat` word holding its bits.
The file is organised as definitions first, then the theorems about them.
-/

namespace Inlogic

/-- JSON-like value carried in requests, queue commands and tag samples. -/
inductive Val where
  | vNull : Val
  | vBool (b : Bool) : Val
  | vInt (n : Int) : Val
  | vStr (s : String) : Val
  deriving DecidableEq, Repr

/-! ## Association-list helpers (embedding of Python dict operations) -/

/-- `d.get(k)` on a Python dict embedded as an association list. -/
def alistGet (l : List (String × α)) (k : String) : Option α :=
  (l.find? (fun p => p.1 == k)).map (fun p => p.2)

/-- `d[k] = v` on a Python dict embedded as an association list: replace the
binding in place when the key is present, otherwise append it. -/
def alistSet (l : List (String × α)) (k : String) (v : α) : List (String × α) :=
  match l with
  | [] => [(k, v)]
  | p :: ps => if p.1 == k then (k, v) :: ps else p :: alistSet ps k v

/-! ## Log bus — `modulos/logger.py` -/

/-- One structured log record (`log_entry` in `logger.py`); the `details`
dict is carried abstractly. -/
structure LogRecord where
  timestamp : String
  level : String
  source : String
  message : String
  deriving DecidableEq, Repr

/-- `MAX_LOGS = 5000`: capacity of the `deque(maxlen=MAX_LOGS)` ring. -/
def MAX_LOGS : Nat := 5000

/-- `log_buffer.append(log_entry)` on a `deque` with `maxlen=MAX_LOGS`:
append at the right and drop from the left beyond the capacity. -/
def log_buffer_append (buf : List LogRecord) (e : LogRecord) : List LogRecord :=
  let appended := buf ++ [e]
  appended.drop (appended.length - MAX_LOGS)

/-- `get_recent_logs(limit)` from `logger.py`: `list(log_buffer)` when
`limit` is `None`, otherwise `list(log_buffer)[-limit:]`.  Python slicing
makes `[-limit:]` the whole list when `limit = 0`, and the last `limit`
elements when `limit ≥ 1`. -/
def get_recent_logs (limit : Option Nat) (buf : List LogRecord) : List LogRecord :=
  match limit with
  | none => buf
  | some n => if n = 0 then buf else buf.drop (buf.length - n)

/-! ## Cognitive policy gate — `ia/gerenciador.py` -/

/-- Result dict of `GerenciadorIA.validar_escrita`. -/
structure Validacao where
  permitido : Bool
  erro : String
  fase_atual : String
  deriving DecidableEq, Repr

/-- `GerenciadorIA.validar_escrita(tag_id, valor)` from `ia/gerenciador.py`:
the body is a single return of a constant dict, ignoring both arguments. -/
def validar_escrita (_tag_id : String) (_valor : Val) : Validacao :=
  { permitido := true, erro := "", fase_atual := "MONITORAMENTO" }

/-! ## Per-device write queues — `modulos/sistema.py` -/

/-- A command placed on a device write queue: either the tuple
`(tag_id, valor)` of `escrever_valor_tag` or the batch dict
`{"valores": ...}` of `escrever_lote_driver`. -/
inductive WriteCmd where
  | single (tag_id : String) (valor : Val)
  | lote (valores : List (String × Val))
  deriving DecidableEq, Repr

/-- A `multiprocessing.Manager().Queue`.  `maxsize = none` embeds a queue
created without a size bound, `some m` a queue created with `maxsize=m`. -/
structure ManagerQueue where
  maxsize : Option Nat
  items : List WriteCmd
  deriving DecidableEq, Repr

/-- `q.put(c)` viewed as accept-or-refuse: `some` of the grown queue when
the queue has room, `none` when a bounded queue is at capacity (the Python
call would not place the item and block). -/
def ManagerQueue.put (q : ManagerQueue) (c : WriteCmd) : Option ManagerQueue :=
  match q.maxsize with
  | none => some { q with items := q.items ++ [c] }
  | some m =>
    if q.items.length < m then some { q with items := q.items ++ [c] }
    else none

/-- `q.put(c)` on an unbounded queue never refuses; this is the call shape
reached by `sistema.py`, whose queues are all created unbounded. -/
def ManagerQueue.putU (q : ManagerQueue) (c : WriteCmd) : ManagerQueue :=
  { q with items := q.items ++ [c] }

/-- `write_queue = self.manager.Queue()` in `iniciar_drivers`
(`sistema.py` line 235): created with no `maxsize` argument, hence
unbounded. -/
def iniciar_drivers_write_queue : ManagerQueue :=
  { maxsize := none, items := [] }

/-- Folding `put` over a list of commands, refusing as soon as one is
refused. -/
def ManagerQueue.putMany (q : ManagerQueue) (cs : List WriteCmd) : Option ManagerQueue :=
  cs.foldl (fun acc c => acc.bind (fun q' => q'.put c)) (some q)

/-! ## Supervisor write routing — `modulos/sistema.py` -/

/-- The slice of `SistemaPrincipal` state used by the write path:
`tag_map` (tag id to driver id, built by `_popular_mapa_de_tags`) and the
per-driver `write_queues`. -/
structure SistemaPrincipal where
  tag_map : List (String × String)
  write_queues : List (String × ManagerQueue)
  deriving Repr

/-- Observable outcome of `escrever_valor_tag`: the queues afterwards, the
calls made to `ia_manager.validar_escrita` (instrumentation of the single
call site), and whether a command was placed on a queue. -/
structure EscreverResultado where
  write_queues : List (String × ManagerQueue)
  gate_calls : List (String × Val)
  enqueued : Bool
  deriving Repr

/-- `SistemaPrincipal.escrever_valor_tag(tag_id, valor)` from `sistema.py`
lines 577-606.  Steps: (1) `driver_id = self.tag_map.get(tag_id)`; the
Python guard `if not driver_id` treats both a missing key and an empty
string as not found; (2) `self.ia_manager.validar_escrita(tag_id, valor)`,
returning early when not permitted; (3) only then look up the driver's
queue and `put((tag_id, valor))` on it.  No writable flag is consulted. -/
def escrever_valor_tag (gate : String → Val → Validacao)
    (sistema : SistemaPrincipal) (tag_id : String) (valor : Val) : EscreverResultado :=
  match alistGet sistema.tag_map tag_id with
  | none =>
    { write_queues := sistema.write_queues, gate_calls := [], enqueued := false }
  | some driver_id =>
    if driver_id = "" then
      { write_queues := sistema.write_queues, gate_calls := [], enqueued := false }
    else
      let validacao := gate tag_id valor
      if validacao.permitido = false then
        { write_queues := sistema.write_queues, gate_calls := [(tag_id, valor)],
          enqueued := false }
      else
        match alistGet sistema.write_queues driver_id with
        | some fila =>
          { write_queues :=
              alistSet sistema.write_queues driver_id (fila.putU (.single tag_id valor)),
            gate_calls := [(tag_id, valor)], enqueued := true }
        | none =>
          { write_queues := sistema.write_queues, gate_calls := [(tag_id, valor)],
            enqueued := false }

/-- Observable outcome of `escrever_lote_driver`: queues afterwards, calls
made to `ia_manager.validar_escrita` (its body contains no such call), and
the boolean return value. -/
structure LoteResultado where
  write_queues : List (String × ManagerQueue)
  gate_calls : List (String × Val)
  retorno : Bool
  deriving Repr

/-- `SistemaPrincipal.escrever_lote_driver(driver_id, valores)` from
`sistema.py` lines 610-623: return `False` when the driver has no queue,
otherwise `put` the whole batch dict and return `True`.  The body never
invokes `validar_escrita`. -/
def escrever_lote_driver (sistema : SistemaPrincipal) (driver_id : String)
    (valores : List (String × Val)) : LoteResultado :=
  match alistGet sistema.write_queues driver_id with
  | none =>
    { write_queues := sistema.write_queues, gate_calls := [], retorno := false }
  | some fila =>
    { write_queues := alistSet sistema.write_queues driver_id (fila.putU (.lote valores)),
      gate_calls := [], retorno := true }

/-! ## HTTP handler `POST /api/escrever` — `servidor/servidor.py` -/

/-- The JSON body of a `POST /api/escrever` request, as the handler probes
it: presence of the `tag_id` and `valor` keys. -/
structure RequestBody where
  tag_id : Option String
  valor : Option Val
  deriving Repr

/-- The HTTP status code and `sucesso` flag of the handler's response. -/
structure HttpResposta where
  status : Nat
  sucesso : Bool
  deriving DecidableEq, Repr

/-- `post_escrever` from `servidor.py` lines 212-228: a 400 when the body
is missing (or falsy) or lacks `tag_id` or `valor`; otherwise it calls
`self.sistema.escrever_valor_tag(tag_id, valor)`, discards its result
(the method returns `None` on every path), and answers 200 with
`sucesso: True` unconditionally. -/
def post_escrever (gate : String → Val → Validacao) (sistema : SistemaPrincipal)
    (dados_requisicao : Option RequestBody) : HttpResposta × EscreverResultado :=
  let semEfeito : EscreverResultado :=
    { write_queues := sistema.write_queues, gate_calls := [], enqueued := false }
  match dados_requisicao with
  | none => ({ status := 400, sucesso := false }, semEfeito)
  | some dados =>
    match dados.tag_id, dados.valor with
    | some tag_id, some valor =>
      ({ status := 200, sucesso := true }, escrever_valor_tag gate sistema tag_id valor)
    | _, _ => ({ status := 400, sucesso := false }, semEfeito)

/-! ## Driver-class selection — `sistema.py` `iniciar_drivers` -/

/-- The driver worker classes defined by the modules under `src/driver/`,
plus the `MockDriverProcess` fallback defined in `sistema.py` itself. -/
inductive DriverClasse where
  | controllogixDriverProcess
  | ModbusDriverProcess
  | MQTTDriverProcess
  | SQLDriverProcess
  | MockDriverProcess
  deriving DecidableEq, Repr

/-- `from <modulo> import <nome>` over the driver modules.  Each module
under `src/driver/` defines exactly one `Process` subclass (the one named
after the module); importing any other name from it raises `ImportError`,
embedded as `none`. -/
def importClasse (modulo : String) (nome : String) : Option DriverClasse :=
  if modulo = "driver.controllogix_driver_process" ∧ nome = "controllogixDriverProcess" then
    some .controllogixDriverProcess
  else if modulo = "driver.modbus_driver_process" ∧ nome = "ModbusDriverProcess" then
    some .ModbusDriverProcess
  else if modulo = "driver.mqtt_driver_process" ∧ nome = "MQTTDriverProcess" then
    some .MQTTDriverProcess
  else if modulo = "driver.sql_driver_process" ∧ nome = "SQLDriverProcess" then
    some .SQLDriverProcess
  else none

/-- The class-selection logic of `iniciar_drivers` (`sistema.py` lines
250-273).  `tipo_driver` is `driver_config.get('tipo', '').lower()`, the
already lower-cased protocol family string; the matching branch attempts
its import and the selection falls back to `MockDriverProcess` when
nothing was imported.  The `modbus_tcp` / `modbus` branch is written as
`from driver.mqtt_driver_process import ModbusDriverProcess`. -/
def selecionar_classe_driver (tipo_driver : String) : DriverClasse :=
  let importada : Option DriverClasse :=
    if tipo_driver = "controllogix" then
      importClasse "driver.controllogix_driver_process" "controllogixDriverProcess"
    else if tipo_driver = "modbus_tcp" ∨ tipo_driver = "modbus" then
      importClasse "driver.mqtt_driver_process" "ModbusDriverProcess"
    else if tipo_driver = "mqtt" then
      importClasse "driver.mqtt_driver_process" "MQTTDriverProcess"
    else if tipo_driver = "sql" then
      importClasse "driver.sql_driver_process" "SQLDriverProcess"
    else none
  match importada with
  | some c => c
  | none => .MockDriverProcess

/-! ## Tag configuration -/

/-- A tag configuration entry, as the drivers and the supervisor read it:
`id`, owning `id_driver`, display `nome`, opaque `endereco` (register
index, tag path, topic or column; `none` embeds a missing key), declared
`tipo_dado`, the `escrita_permitida` writable flag and the `scan_enabled`
flag. -/
structure TagCfg where
  id : String
  id_driver : String
  nome : String
  endereco : Option String
  tipo_dado : String
  escrita_permitida : Bool
  scan_enabled : Bool
  deriving DecidableEq, Repr

/-! ## Modbus register access — `driver/modbus_driver_process.py` -/

/-- The Modbus client call issued by `_read_single_tag` for one tag, by
declared data kind. -/
inductive ModbusReadAction where
  | readCoils (addr count : Nat)
  | readHoldingRegisters (addr count : Nat)
  | invalidAddr
  | unsupportedType (tipo : String)
  deriving DecidableEq, Repr

/-- `struct.pack('>HH', r1, r2)` followed by `struct.unpack('>f', ...)`:
the two 16-bit registers are assembled big-endian into one 32-bit word,
the IEEE-754 bit pattern of the float (the float value is represented here
by its bit pattern). -/
def modbus_decode_float (r1 r2 : Nat) : Nat :=
  (r1 % 65536) * 65536 + r2 % 65536

/-- `struct.pack('>f', v)` followed by `struct.unpack('>HH', ...)` on the
32-bit bit pattern `w`: the big-endian high register then low register. -/
def modbus_encode_float (w : Nat) : List Nat :=
  [w / 65536 % 65536, w % 65536]

/-- `_read_single_tag(addr, tipo, ...)`: negative address rejected, `bool`
reads one coil, `int`/`int16`/`uint16` one holding register, `float`/`real`
two consecutive holding registers (decoded by `modbus_decode_float`), any
other kind unsupported. -/
def modbus_read_plan (addr : Int) (tipo : String) : ModbusReadAction :=
  if addr < 0 then .invalidAddr
  else if tipo = "bool" then .readCoils addr.toNat 1
  else if tipo = "int" ∨ tipo = "int16" ∨ tipo = "uint16" then
    .readHoldingRegisters addr.toNat 1
  else if tipo = "float" ∨ tipo = "real" then
    .readHoldingRegisters addr.toNat 2
  else .unsupportedType tipo

/-- The Modbus client call issued by `_process_write_queue` for one
command, by declared data kind. -/
inductive ModbusWriteAction where
  | writeSingleCoil (addr : Nat) (valor : Bool)
  | writeSingleRegister (addr : Nat) (valor : Int)
  | writeMultipleRegisters (addr : Nat) (regs : List Nat)
  | unsupportedType (tipo : String)
  deriving DecidableEq, Repr

/-- The write dispatch of `_process_write_queue`: `b` is `bool(valor)`,
`n` is `int(valor)` and `w` the IEEE-754 bit pattern of `float(valor)`;
each branch uses only the coercion matching its data kind.  `bool` writes
a single coil, `int`/`int16`/`uint16` a single holding register, and
`float`/`real` the two big-endian registers of `w` via
`write_multiple_registers`. -/
def modbus_write_plan (addr : Nat) (tipo : String) (b : Bool) (n : Int)
    (w : Nat) : ModbusWriteAction :=
  if tipo = "bool" then .writeSingleCoil addr b
  else if tipo = "int" ∨ tipo = "int16" ∨ tipo = "uint16" then
    .writeSingleRegister addr n
  else if tipo = "float" ∨ tipo = "real" then
    .writeMultipleRegisters addr (modbus_encode_float w)
  else .unsupportedType tipo

/-! ## Driver worker run loop — `run` of the Modbus/ControlLogix workers

`ModbusDriverProcess.run` and `controllogixDriverProcess.run` share the
same structure: validate the endpoint, loop over connection attempts, and
on success enter `_communication_loop` (scan plus write drain) until a
communication error forces reconnection.  The machine below embeds that
control flow; the snapshot is projected to the driver's `status_conexao`
and the `qualidade` field of each tag sample. -/

/-- Position in the `run` control flow: before the endpoint check, inside
the connection-attempt loop, inside `_communication_loop`, or returned
(missing endpoint). -/
inductive DriverMode where
  | Init
  | Connecting
  | Scanning
  | Halted
  deriving DecidableEq, Repr

/-- One observable step of the worker: the endpoint check at start, the
outcome of a connection attempt, one scan pass (`_read_all_tags`) carrying
each tag's read result (`none` embeds a `None` value), or a communication
error breaking the scan loop. -/
inductive DriverEvent where
  | startNoEndpoint
  | startOk
  | connectOk
  | connectFail (detalhe : String)
  | scanRead (valores : List (String × Option Val))
  | commFail
  deriving Repr

/-- The worker-visible state: the published `status_conexao`, the
`qualidade` of each published tag sample, the worker-local
`last_logged_status`, and the control-flow mode. -/
structure DriverRunState where
  status_conexao : String
  qualidades : List (String × String)
  last_logged_status : Option String
  mode : DriverMode
  deriving DecidableEq, Repr

/-- `_mark_all_tags_bad`: every configured tag (scan-enabled or not) gets
quality `ruim`. -/
def marcar_todas_ruins (tags_config : List TagCfg)
    (qs : List (String × String)) : List (String × String) :=
  tags_config.foldl (fun acc t => alistSet acc t.id "ruim") qs

/-- `_read_all_tags`: each scan-enabled tag's quality becomes `boa` when
its read produced a value and `ruim` otherwise. -/
def atualizar_qualidades_scan (tags_config : List TagCfg)
    (valores : List (String × Option Val))
    (qs : List (String × String)) : List (String × String) :=
  (tags_config.filter (fun t => t.scan_enabled)).foldl
    (fun acc t =>
      alistSet acc t.id
        (match alistGet valores t.id with
        | some (some _) => "boa"
        | _ => "ruim"))
    qs

/-- One step of the worker `run` loop.  A missing endpoint publishes
`desconectado`, marks every tag bad and returns.  A failed connection
attempt always publishes `desconectado` and — exactly on the transition,
guarded by `last_logged_status` — marks every tag bad.  A successful
attempt publishes `conectado` (same guard) and enters the scan loop.  A
scan pass rewrites the scanned tags' qualities; a communication error
returns to the connection loop without touching the snapshot. -/
def driver_step (tags_config : List TagCfg) (s : DriverRunState)
    (e : DriverEvent) : DriverRunState :=
  match s.mode, e with
  | .Init, .startNoEndpoint =>
    { s with status_conexao := "desconectado",
             qualidades := marcar_todas_ruins tags_config s.qualidades,
             mode := .Halted }
  | .Init, .startOk => { s with mode := .Connecting }
  | .Connecting, .connectOk =>
    if s.last_logged_status ≠ some "conectado" then
      { s with status_conexao := "conectado",
               last_logged_status := some "conectado",
               mode := .Scanning }
    else
      { s with mode := .Scanning }
  | .Connecting, .connectFail _ =>
    if s.last_logged_status ≠ some "desconectado" then
      { s with status_conexao := "desconectado",
               qualidades := marcar_todas_ruins tags_config s.qualidades,
               last_logged_status := some "desconectado" }
    else
      { s with status_conexao := "desconectado" }
  | .Scanning, .scanRead valores =>
    { s with qualidades := atualizar_qualidades_scan tags_config valores s.qualidades }
  | .Scanning, .commFail => { s with mode := .Connecting }
  | _, _ => s

/-- The state at worker start: `iniciar_drivers` publishes
`status_conexao: "iniciando"` with an empty tags map. -/
def estado_inicial_driver : DriverRunState :=
  { status_conexao := "iniciando", qualidades := [],
    last_logged_status := none, mode := .Init }

/-- The worker state after a sequence of steps from start. -/
def driver_run (tags_config : List TagCfg) (eventos : List DriverEvent) :
    DriverRunState :=
  eventos.foldl (driver_step tags_config) estado_inicial_driver

/-- Every published tag sample has quality `ruim`. -/
def todas_ruins (qs : List (String × String)) : Prop :=
  ∀ p ∈ qs, p.2 = "ruim"

/-- The inductive invariant of the worker machine: whenever the published
status is `desconectado`, every published tag quality is `ruim`; the
bookkeeping conjuncts tie `last_logged_status`, the mode and the published
status together, and bound the published tag keys by the configured ids
without duplicates. -/
def InvDriver (tags_config : List TagCfg) (s : DriverRunState) : Prop :=
  (s.status_conexao = "desconectado" →
    todas_ruins s.qualidades ∧
      (s.mode = .Halted ∨ s.last_logged_status = some "desconectado")) ∧
  (s.last_logged_status = some "desconectado" →
    todas_ruins s.qualidades ∧ s.status_conexao = "desconectado") ∧
  (s.last_logged_status = some "conectado" →
    s.status_conexao = "conectado" ∨ s.mode = .Halted) ∧
  (s.mode = .Scanning → s.status_conexao = "conectado") ∧
  (∀ p ∈ s.qualidades, p.1 ∈ tags_config.map (fun t => t.id)) ∧
  (s.qualidades.map Prod.fst).Nodup

/-! ## Shared-snapshot tag updates — `_update_shared_tags` of the drivers

The snapshot is projected to the `tags` entry of each driver record:
`driver-id → (tag-key → tag sample)`.  The updates below copy each
driver's `_update_shared_tags` body; the wall clock (`datetime.now()`) is
passed in as `now`. -/

/-- A tag sample dict as stored in the snapshot (`tag_status` in the
drivers).  `formato_lido`/`formato_requerido` are written only by the
ControlLogix driver; `none` embeds the absent key. -/
structure TagSample where
  id : String
  id_driver : String
  nome : String
  endereco : String
  tipo_dado : String
  valor : Option Val
  qualidade : String
  timestamp : String
  log : String
  formato_lido : Option String
  formato_requerido : Option String
  deriving DecidableEq, Repr

/-- A per-tag read result (`dados_lidos[tag_id]` in the drivers). -/
structure DadosLido where
  valor : Option Val
  qualidade : String
  log : String
  deriving DecidableEq, Repr

/-- The snapshot projected to each driver's `tags` map. -/
abbrev SharedTags := List (String × List (String × TagSample))

/-- `next((t for t in self.tags_config if t['id'] == tag_id), {})`. -/
def findTagCfgById (tags_config : List TagCfg) (tag_id : String) : Option TagCfg :=
  tags_config.find? (fun t => t.id == tag_id)

/-- The `tag_status` dict built by `ModbusDriverProcess._update_shared_tags`
for one entry of `dados_lidos`. -/
def modbus_tag_status (driver_id : String) (tags_config : List TagCfg)
    (now : String) (p : String × DadosLido) : TagSample :=
  let tag_config := findTagCfgById tags_config p.1
  { id := p.1,
    id_driver := driver_id,
    nome := (tag_config.map (fun t => t.nome)).getD "--",
    endereco := (tag_config.bind (fun t => t.endereco)).getD "--",
    tipo_dado := (tag_config.map (fun t => t.tipo_dado)).getD "--",
    valor := p.2.valor,
    qualidade := p.2.qualidade,
    timestamp := now,
    log := p.2.log,
    formato_lido := none,
    formato_requerido := none }

/-- `ModbusDriverProcess._update_shared_tags`: no-op when the driver's
record is absent (`if not hasattr(driver_data, 'get'): return`), otherwise
write each sample under its `dados_lidos` key and store the map back under
the driver's id. -/
def modbus_update_shared_tags (driver_id : String) (tags_config : List TagCfg)
    (now : String) (shared : SharedTags)
    (dados_lidos : List (String × DadosLido)) : SharedTags :=
  match alistGet shared driver_id with
  | none => shared
  | some current_tags =>
    alistSet shared driver_id
      (dados_lidos.foldl
        (fun acc p => alistSet acc p.1 (modbus_tag_status driver_id tags_config now p))
        current_tags)

/-- The `tag_status` dict built by
`controllogixDriverProcess._update_shared_tags` for one entry: like the
Modbus one plus `formato_lido` (defaulted `--`, `dados_lidos` entries carry
none) and `formato_requerido`. -/
def controllogix_tag_status (driver_id : String) (tags_config : List TagCfg)
    (now : String) (p : String × DadosLido) : TagSample :=
  let tag_config := findTagCfgById tags_config p.1
  { id := p.1,
    id_driver := driver_id,
    nome := (tag_config.map (fun t => t.nome)).getD "--",
    endereco := (tag_config.bind (fun t => t.endereco)).getD "--",
    tipo_dado := (tag_config.map (fun t => t.tipo_dado)).getD "--",
    valor := p.2.valor,
    qualidade := p.2.qualidade,
    timestamp := now,
    log := p.2.log,
    formato_lido := some "--",
    formato_requerido := some ((tag_config.map (fun t => t.tipo_dado)).getD "--") }

/-- `controllogixDriverProcess._update_shared_tags`: the driver record
defaults to empty when absent (`self.shared_data.get(self.driver_id, {})`),
each sample is written under its `dados_lidos` key, and the map is stored
back under the driver's id. -/
def controllogix_update_shared_tags (driver_id : String)
    (tags_config : List TagCfg) (now : String) (shared : SharedTags)
    (dados_lidos : List (String × DadosLido)) : SharedTags :=
  let current_tags := (alistGet shared driver_id).getD []
  alistSet shared driver_id
    (dados_lidos.foldl
      (fun acc p =>
        alistSet acc p.1 (controllogix_tag_status driver_id tags_config now p))
      current_tags)

/-- `next((t for t in self.tags_config if t.get('endereco') == tag_id or
t['id'] == tag_id), {})` — the MQTT driver resolves a `dados_lidos` key
(a topic for received messages) against the configuration by address
first, id second, in list order. -/
def mqtt_find_tag_config (tags_config : List TagCfg) (tag_id : String) : Option TagCfg :=
  tags_config.find? (fun t => t.endereco == some tag_id || t.id == tag_id)

/-- The key under which `MQTTDriverProcess._update_shared_tags` stores one
entry: `tag_status['id'] = tag_config.get('id', tag_id)` — the matched
configuration's id, or the raw `dados_lidos` key when nothing matches. -/
def mqtt_chave_armazenada (tags_config : List TagCfg) (tag_id : String) : String :=
  match mqtt_find_tag_config tags_config tag_id with
  | some t => t.id
  | none => tag_id

/-- The `tag_status` dict built by `MQTTDriverProcess._update_shared_tags`
for one entry of `dados_lidos`. -/
def mqtt_tag_status (driver_id : String) (tags_config : List TagCfg)
    (now : String) (p : String × DadosLido) : TagSample :=
  let tag_config := mqtt_find_tag_config tags_config p.1
  { id := mqtt_chave_armazenada tags_config p.1,
    id_driver := driver_id,
    nome := (tag_config.map (fun t => t.nome)).getD "--",
    endereco := (tag_config.bind (fun t => t.endereco)).getD p.1,
    tipo_dado := (tag_config.map (fun t => t.tipo_dado)).getD "--",
    valor := p.2.valor,
    qualidade := p.2.qualidade,
    timestamp := now,
    log := p.2.log,
    formato_lido := none,
    formato_requerido := none }

/-- `MQTTDriverProcess._update_shared_tags`: the driver record defaults to
empty when absent (`if not driver_data: driver_data = {}`), each sample is
stored under `tag_status['id']`, and the map is stored back under the
driver's id. -/
def mqtt_update_shared_tags (driver_id : String) (tags_config : List TagCfg)
    (now : String) (shared : SharedTags)
    (dados_lidos : List (String × DadosLido)) : SharedTags :=
  let current_tags := (alistGet shared driver_id).getD []
  alistSet shared driver_id
    (dados_lidos.foldl
      (fun acc p =>
        alistSet acc (mqtt_chave_armazenada tags_config p.1)
          (mqtt_tag_status driver_id tags_config now p))
      current_tags)

/-- The `tag_status` dict built by `SQLDriverProcess._update_shared_tags`
for one entry of `dados_lidos` (keyed and resolved by tag id, like the
Modbus one). -/
def sql_tag_status (driver_id : String) (tags_config : List TagCfg)
    (now : String) (p : String × DadosLido) : TagSample :=
  let tag_config := findTagCfgById tags_config p.1
  { id := p.1,
    id_driver := driver_id,
    nome := (tag_config.map (fun t => t.nome)).getD "--",
    endereco := (tag_config.bind (fun t => t.endereco)).getD "--",
    tipo_dado := (tag_config.map (fun t => t.tipo_dado)).getD "--",
    valor := p.2.valor,
    qualidade := p.2.qualidade,
    timestamp := now,
    log := p.2.log,
    formato_lido := none,
    formato_requerido := none }

/-- `SQLDriverProcess._update_shared_tags`: the driver record defaults to
empty when absent, each sample is written under its `dados_lidos` key, and
the map is stored back under the driver's id. -/
def sql_update_shared_tags (driver_id : String) (tags_config : List TagCfg)
    (now : String) (shared : SharedTags)
    (dados_lidos : List (String × DadosLido)) : SharedTags :=
  let current_tags := (alistGet shared driver_id).getD []
  alistSet shared driver_id
    (dados_lidos.foldl
      (fun acc p => alistSet acc p.1 (sql_tag_status driver_id tags_config now p))
      current_tags)

/-- `MQTTDriverProcess._process_message(topic, valor)` after its
trim-and-parse of the UTF-8 payload (abstracted into `valor`: `none` for
an empty payload, `some` of the parsed value otherwise): a singleton
`dados_lidos` keyed by the raw topic, quality `boa` exactly when a value
is present, handed to `_update_shared_tags`. -/
def mqtt_process_message (driver_id : String) (tags_config : List TagCfg)
    (now : String) (shared : SharedTags) (topic : String) (valor : Option Val) :
    SharedTags :=
  let dados_lidos : List (String × DadosLido) :=
    [(topic,
      { valor := valor,
        qualidade := if valor.isSome then "boa" else "ruim",
        log := if valor.isSome then "Mensagem recebida MQTT" else "Valor vazio recebido" })]
  mqtt_update_shared_tags driver_id tags_config now shared dados_lidos

/-- The ownership invariant of the snapshot: every tag sample's
`id_driver` equals the driver id under whose record it is stored. -/
def donos_corretos (shared : SharedTags) : Prop :=
  ∀ p ∈ shared, ∀ q ∈ p.2, q.2.id_driver = p.1

/-! ## Concrete example inputs used by witnesses and counterexamples -/

/-- A single write command used in concrete evaluations. -/
def comandoExemplo : WriteCmd := .single "t1" (.vInt 1)

/-- A log record used in concrete evaluations. -/
def registroExemplo : LogRecord :=
  { timestamp := "2025-01-01 00:00:00", level := "INFO", source := "MAIN",
    message := "mensagem" }

/-- A gate that rejects every write, as scenario S4 of the spec supplies. -/
def gateRecusa : String → Val → Validacao :=
  fun _ _ => { permitido := false, erro := "phase-monitor", fase_atual := "MONITORAMENTO" }

/-- A system with an empty routing table and one driver queue. -/
def sistemaSemRotas : SistemaPrincipal :=
  { tag_map := [], write_queues := [("d1", iniciar_drivers_write_queue)] }

/-- A system routing tag `t1` to driver `d1`, whose queue is empty. -/
def sistemaComT1 : SistemaPrincipal :=
  { tag_map := [("t1", "d1")], write_queues := [("d1", iniciar_drivers_write_queue)] }

/-- A configuration entry declaring tag `t1` of driver `d1` NOT writable. -/
def tagNaoEscrevivel : TagCfg :=
  { id := "t1", id_driver := "d1", nome := "Tag 1", endereco := some "0",
    tipo_dado := "int", escrita_permitida := false, scan_enabled := true }

/-- An MQTT tag whose topic address is `sensor/temp` and whose id differs
from it. -/
def tagMqttExemplo : TagCfg :=
  { id := "tag_mqtt", id_driver := "d1", nome := "Sensor", endereco := some "sensor/temp",
    tipo_dado := "float", escrita_permitida := false, scan_enabled := true }

/-- A per-tag read result used in concrete evaluations. -/
def dadosLidoExemplo : DadosLido :=
  { valor := some (.vInt 1), qualidade := "boa", log := "OK" }

/-! # Theorems -/

/-! ## Association-list lemmas -/

theorem alistGet_alistSet_self (l : List (String × α)) (k : String) (v : α) :
    alistGet (alistSet l k v) k = some v := by
  induction l with
  | nil => simp [alistGet, alistSet, List.find?]
  | cons p ps ih =>
    by_cases h : p.1 == k
    · simp [alistSet, h, alistGet, List.find?]
    · simp only [alistSet, h, Bool.false_eq_true, if_false]
      unfold alistGet
      rw [List.find?_cons_of_neg _ (by simpa using h)]
      exact ih

theorem mem_alistSet (l : List (String × α)) (k : String) (v : α) (p : String × α)
    (hp : p ∈ alistSet l k v) : p = (k, v) ∨ p ∈ l := by
  induction l with
  | nil => simpa [alistSet] using hp
  | cons q qs ih =>
    by_cases h : q.1 == k
    · simp only [alistSet, h, if_true] at hp
      rcases List.mem_cons.mp hp with h1 | h2
      · exact Or.inl h1
      · exact Or.inr (List.mem_cons_of_mem _ h2)
    · simp only [alistSet, h, Bool.false_eq_true, if_false] at hp
      rcases List.mem_cons.mp hp with h1 | h2
      · exact Or.inr (h1 ▸ List.mem_cons_self _ _)
      · rcases ih h2 with h3 | h4
        · exact Or.inl h3
        · exact Or.inr (List.mem_cons_of_mem _ h4)

theorem alistGet_mem (l : List (String × α)) (k : String) (v : α)
    (h : alistGet l k = some v) : (k, v) ∈ l := by
  unfold alistGet at h
  rcases hf : l.find? (fun p => p.1 == k) with _ | p
  · rw [hf] at h
    simp at h
  · rw [hf] at h
    have hmem := List.mem_of_find?_eq_some hf
    have hkey := List.find?_some hf
    obtain ⟨p1, p2⟩ := p
    simp only [beq_iff_eq] at hkey
    simp only [Option.map_some'] at h
    injection h with h2
    subst hkey
    subst h2
    exact hmem

/-- After folding key/value insertions over a list, every stored value
either came from the fold or was already in the base map. -/
theorem foldl_alistSet_forall {α : Type u} {β : Type v} (P : β → Prop)
    (chave : α → String) (valor : α → β) (l : List α)
    (hv : ∀ x, P (valor x)) :
    ∀ base : List (String × β), (∀ q ∈ base, P q.2) →
      ∀ q ∈ l.foldl (fun acc x => alistSet acc (chave x) (valor x)) base, P q.2 := by
  induction l with
  | nil => exact fun base hb q hq => hb q hq
  | cons x xs ih =>
    intro base hb q hq
    simp only [List.foldl_cons] at hq
    refine ih _ ?_ q hq
    intro r hr
    rcases mem_alistSet _ _ _ _ hr with h1 | h2
    · rw [h1]
      exact hv x
    · exact hb r h2

theorem mem_alistSet_of_nodup {β : Type v} (l : List (String × β)) (k : String)
    (v : β) (hnd : (l.map Prod.fst).Nodup) (p : String × β)
    (hp : p ∈ alistSet l k v) : p = (k, v) ∨ (p ∈ l ∧ p.1 ≠ k) := by
  induction l with
  | nil =>
    simp only [alistSet, List.mem_singleton] at hp
    exact Or.inl hp
  | cons q qs ih =>
    simp only [List.map_cons, List.nodup_cons] at hnd
    by_cases h : q.1 == k
    · simp only [alistSet, h, if_true] at hp
      rcases List.mem_cons.mp hp with h1 | h2
      · exact Or.inl h1
      · refine Or.inr ⟨List.mem_cons_of_mem _ h2, ?_⟩
        intro hk
        have hq1 : q.1 = k := by simpa using h
        have hmem : p.1 ∈ qs.map Prod.fst := List.mem_map_of_mem Prod.fst h2
        rw [hk, ← hq1] at hmem
        exact hnd.1 hmem
    · simp only [alistSet, h, Bool.false_eq_true, if_false] at hp
      rcases List.mem_cons.mp hp with h1 | h2
      · subst h1
        exact Or.inr ⟨List.mem_cons_self _ _, by simpa using h⟩
      · rcases ih hnd.2 h2 with h3 | h4
        · exact Or.inl h3
        · exact Or.inr ⟨List.mem_cons_of_mem _ h4.1, h4.2⟩

theorem nodup_keys_alistSet {β : Type v} (l : List (String × β)) (k : String)
    (v : β) (hnd : (l.map Prod.fst).Nodup) :
    ((alistSet l k v).map Prod.fst).Nodup := by
  induction l with
  | nil => simp [alistSet]
  | cons q qs ih =>
    simp only [List.map_cons, List.nodup_cons] at hnd
    by_cases h : q.1 == k
    · have hq1 : q.1 = k := by simpa using h
      simp only [alistSet, h, if_true, List.map_cons, List.nodup_cons]
      exact ⟨hq1 ▸ hnd.1, hnd.2⟩
    · simp only [alistSet, h, Bool.false_eq_true, if_false, List.map_cons,
        List.nodup_cons]
      refine ⟨?_, ih hnd.2⟩
      intro hmem
      rcases List.mem_map.mp hmem with ⟨p, hp, hp1⟩
      rcases mem_alistSet_of_nodup qs k v hnd.2 p hp with h1 | h3
      · rw [h1] at hp1
        exact absurd hp1.symm (by simpa using h)
      · exact hnd.1 (hp1 ▸ List.mem_map_of_mem Prod.fst h3.1)

/-- Every pair in a fold of key/value insertions either was inserted by
the fold or was already in the base map. -/
theorem mem_foldl_alistSet {α : Type u} {β : Type v} (chave : α → String)
    (valor : α → β) (l : List α) :
    ∀ (base : List (String × β)) (p : String × β),
      p ∈ l.foldl (fun acc x => alistSet acc (chave x) (valor x)) base →
      (∃ x ∈ l, p = (chave x, valor x)) ∨ p ∈ base := by
  induction l with
  | nil => exact fun base p hp => Or.inr hp
  | cons x xs ih =>
    intro base p hp
    simp only [List.foldl_cons] at hp
    rcases ih _ p hp with ⟨y, hy, hpy⟩ | h2
    · exact Or.inl ⟨y, List.mem_cons_of_mem _ hy, hpy⟩
    · rcases mem_alistSet _ _ _ _ h2 with h3 | h4
      · exact Or.inl ⟨x, List.mem_cons_self _ _, h3⟩
      · exact Or.inr h4

theorem foldl_alistSet_nodup {α : Type u} {β : Type v} (chave : α → String)
    (valor : α → β) (l : List α) :
    ∀ base : List (String × β), (base.map Prod.fst).Nodup →
      ((l.foldl (fun acc x => alistSet acc (chave x) (valor x)) base).map
        Prod.fst).Nodup := by
  induction l with
  | nil => exact fun base h => h
  | cons x xs ih =>
    intro base h
    simp only [List.foldl_cons]
    exact ih _ (nodup_keys_alistSet _ _ _ h)

/-- Inserting `ruim` for every id of a list of tags makes every stored
quality `ruim`, provided every other key is still due for insertion. -/
theorem todas_ruins_foldl (l : List TagCfg) :
    ∀ qs : List (String × String), (qs.map Prod.fst).Nodup →
      (∀ p ∈ qs, p.2 = "ruim" ∨ p.1 ∈ l.map (fun t => t.id)) →
      todas_ruins (l.foldl (fun acc t => alistSet acc t.id "ruim") qs) := by
  induction l with
  | nil =>
    intro qs _ hq p hp
    rcases hq p hp with h1 | h2
    · exact h1
    · simp at h2
  | cons t ts ih =>
    intro qs hnd hq
    simp only [List.foldl_cons]
    refine ih (alistSet qs t.id "ruim") (nodup_keys_alistSet _ _ _ hnd) ?_
    intro r hr
    rcases mem_alistSet_of_nodup qs t.id "ruim" hnd r hr with h1 | h2
    · exact Or.inl (by rw [h1])
    · rcases hq r h2.1 with h3 | h4
      · exact Or.inl h3
      · simp only [List.map_cons, List.mem_cons] at h4
        rcases h4 with h5 | h6
        · exact absurd h5 h2.2
        · exact Or.inr h6

theorem marcar_todas_ruins_prop (cfg : List TagCfg) (qs : List (String × String))
    (hN : (qs.map Prod.fst).Nodup)
    (hE : ∀ p ∈ qs, p.1 ∈ cfg.map (fun t => t.id)) :
    todas_ruins (marcar_todas_ruins cfg qs) :=
  todas_ruins_foldl cfg qs hN (fun p hp => Or.inr (hE p hp))

theorem marcar_todas_ruins_keys (cfg : List TagCfg) (qs : List (String × String))
    (hE : ∀ p ∈ qs, p.1 ∈ cfg.map (fun t => t.id)) :
    ∀ p ∈ marcar_todas_ruins cfg qs, p.1 ∈ cfg.map (fun t => t.id) := by
  intro p hp
  rcases mem_foldl_alistSet (fun t : TagCfg => t.id) (fun _ => "ruim") cfg qs p hp
    with ⟨t, ht, hpt⟩ | h2
  · rw [hpt]
    exact List.mem_map_of_mem _ ht
  · exact hE p h2

theorem marcar_todas_ruins_nodup (cfg : List TagCfg) (qs : List (String × String))
    (hN : (qs.map Prod.fst).Nodup) :
    ((marcar_todas_ruins cfg qs).map Prod.fst).Nodup :=
  foldl_alistSet_nodup (fun t : TagCfg => t.id) (fun _ => "ruim") cfg qs hN

theorem atualizar_qualidades_scan_keys (cfg : List TagCfg)
    (valores : List (String × Option Val)) (qs : List (String × String))
    (hE : ∀ p ∈ qs, p.1 ∈ cfg.map (fun t => t.id)) :
    ∀ p ∈ atualizar_qualidades_scan cfg valores qs,
      p.1 ∈ cfg.map (fun t => t.id) := by
  intro p hp
  unfold atualizar_qualidades_scan at hp
  rcases mem_foldl_alistSet (fun t : TagCfg => t.id)
      (fun t => match alistGet valores t.id with
        | some (some _) => "boa"
        | _ => "ruim")
      (cfg.filter (fun t => t.scan_enabled)) qs p hp with ⟨t, ht, hpt⟩ | h2
  · rw [hpt]
    exact List.mem_map_of_mem _ (List.mem_of_mem_filter ht)
  · exact hE p h2

theorem atualizar_qualidades_scan_nodup (cfg : List TagCfg)
    (valores : List (String × Option Val)) (qs : List (String × String))
    (hN : (qs.map Prod.fst).Nodup) :
    ((atualizar_qualidades_scan cfg valores qs).map Prod.fst).Nodup := by
  unfold atualizar_qualidades_scan
  exact foldl_alistSet_nodup (fun t : TagCfg => t.id)
    (fun t => match alistGet valores t.id with
      | some (some _) => "boa"
      | _ => "ruim")
    (cfg.filter (fun t => t.scan_enabled)) qs hN

theorem donos_corretos_alistSet (shared : SharedTags) (d : String)
    (tags : List (String × TagSample)) (h : donos_corretos shared)
    (ht : ∀ q ∈ tags, q.2.id_driver = d) :
    donos_corretos (alistSet shared d tags) := by
  intro p hp q hq
  rcases mem_alistSet _ _ _ _ hp with h1 | h2
  · subst h1
    exact ht q hq
  · exact h p h2 q hq

theorem donos_corretos_base (shared : SharedTags) (d : String)
    (h : donos_corretos shared) :
    ∀ q ∈ (alistGet shared d).getD [], q.2.id_driver = d := by
  rcases hg : alistGet shared d with _ | tags
  · simp
  · simpa using h (d, tags) (alistGet_mem _ _ _ hg)

/-! ## Queue lemmas -/

theorem ManagerQueue.put_unbounded_isSome (q : ManagerQueue) (c : WriteCmd)
    (h : q.maxsize = none) : (q.put c).isSome := by
  simp [ManagerQueue.put, h]

theorem ManagerQueue.putMany_unbounded (items cs : List WriteCmd) :
    ManagerQueue.putMany ⟨none, items⟩ cs = some ⟨none, items ++ cs⟩ := by
  induction cs generalizing items with
  | nil => simp [ManagerQueue.putMany]
  | cons c cs ih =>
    have h1 : ManagerQueue.putMany ⟨none, items⟩ (c :: cs) =
        ManagerQueue.putMany ⟨none, items ++ [c]⟩ cs := by
      simp [ManagerQueue.putMany, ManagerQueue.put]
    rw [h1, ih]
    simp

/-! ## Claim C9 — the policy gate is a constant allow -/

/-- C9: for every tag id and every value, `GerenciadorIA.validar_escrita`
returns the constant dict with `permitido = True`, empty `erro` and
`fase_atual = MONITORAMENTO`; the gate never rejects any write. -/
theorem C9_validar_escrita_constante :
    ∀ (tag_id : String) (valor : Val),
      validar_escrita tag_id valor =
        { permitido := true, erro := "", fase_atual := "MONITORAMENTO" } :=
  fun _ _ => rfl

/-! ## Claim C1 — status codes of `POST /api/escrever` -/

/-- C1 counterexample: with an empty routing table, a well-formed request
for the unknown tag `t1` is answered with status 200, not 404 as the claim
requires, and nothing is enqueued. -/
theorem C1_contraexemplo_tag_desconhecida_200 :
    alistGet sistemaSemRotas.tag_map "t1" = none ∧
    (post_escrever validar_escrita sistemaSemRotas
        (some { tag_id := some "t1", valor := some (.vInt 1) })).1.status = 200 ∧
    (post_escrever validar_escrita sistemaSemRotas
        (some { tag_id := some "t1", valor := some (.vInt 1) })).2.enqueued = false :=
  ⟨rfl, rfl, rfl⟩

/-- C1 amended: `POST /api/escrever` answers 400 exactly when the body is
missing or lacks `tag_id` or `valor`; in every other case it answers 200
with `sucesso`, regardless of whether the tag is routed, the policy gate
permits, or the command is enqueued (those failures are only logged). -/
theorem C1_post_escrever_status (gate : String → Val → Validacao)
    (sistema : SistemaPrincipal) (dados : Option RequestBody) :
    ((dados = none ∨ ∃ b, dados = some b ∧ (b.tag_id = none ∨ b.valor = none)) →
      (post_escrever gate sistema dados).1 = ⟨400, false⟩) ∧
    (∀ b tag_id valor, dados = some b → b.tag_id = some tag_id → b.valor = some valor →
      (post_escrever gate sistema dados).1 = ⟨200, true⟩) := by
  constructor
  · rintro (rfl | ⟨b, rfl, hb⟩)
    · rfl
    · rcases hb with h | h <;>
        · simp only [post_escrever]
          rcases ht : b.tag_id with _ | t <;> rcases hv : b.valor with _ | v <;>
            simp_all
  · rintro b tag_id valor rfl ht hv
    simp [post_escrever, ht, hv]

/-- C1 amended, witness: the theorem applied at a missing body and at a
complete body over concrete states. -/
theorem C1_post_escrever_status_witness :
    (post_escrever validar_escrita sistemaSemRotas none).1 = ⟨400, false⟩ ∧
    (post_escrever validar_escrita sistemaComT1
        (some { tag_id := some "t1", valor := some (.vInt 1) })).1 = ⟨200, true⟩ :=
  ⟨(C1_post_escrever_status validar_escrita sistemaSemRotas none).1 (Or.inl rfl),
   (C1_post_escrever_status validar_escrita sistemaComT1
      (some { tag_id := some "t1", valor := some (.vInt 1) })).2
      { tag_id := some "t1", valor := some (.vInt 1) } "t1" (.vInt 1) rfl rfl rfl⟩

/-! ## Claim C2 — per-device write queues are not bounded at 256 -/

/-- C2 counterexample: the queue `iniciar_drivers` creates per device does
not carry capacity 256 (it is created with no bound at all), and the 257th
enqueue after 256 enqueues still succeeds instead of being refused. -/
theorem C2_contraexemplo_fila_ilimitada :
    iniciar_drivers_write_queue.maxsize ≠ some 256 ∧
    ((iniciar_drivers_write_queue.putMany (List.replicate 256 comandoExemplo)).bind
        (fun q => q.put comandoExemplo)).isSome = true := by
  refine ⟨by simp [iniciar_drivers_write_queue], ?_⟩
  rw [show iniciar_drivers_write_queue = ⟨none, []⟩ from rfl,
    ManagerQueue.putMany_unbounded]
  show (ManagerQueue.put ⟨none, [] ++ List.replicate 256 comandoExemplo⟩
      comandoExemplo).isSome = true
  exact ManagerQueue.put_unbounded_isSome _ _ rfl

/-- C2 amended: every per-device write queue is created by
`iniciar_drivers` with no `maxsize`, hence unbounded, and an enqueue onto
an unbounded queue always appends the command — there is no queue-full
rejection for any queue length. -/
theorem C2_fila_sem_limite :
    iniciar_drivers_write_queue.maxsize = none ∧
    ∀ (q : ManagerQueue) (c : WriteCmd), q.maxsize = none →
      q.put c = some { q with items := q.items ++ [c] } :=
  ⟨rfl, fun q c h => by simp [ManagerQueue.put, h]⟩

/-- C2 amended, witness: the enqueue clause applied to the concrete queue
created by `iniciar_drivers`. -/
theorem C2_fila_sem_limite_witness :
    iniciar_drivers_write_queue.put comandoExemplo =
      some { iniciar_drivers_write_queue with items := [comandoExemplo] } :=
  C2_fila_sem_limite.2 iniciar_drivers_write_queue comandoExemplo rfl

/-! ## Claim C3 — driver selection for `modbus_tcp` -/

/-- C3: for a device of `tipo` `modbus_tcp` the supervisor attempts
`from driver.mqtt_driver_process import ModbusDriverProcess`; that module
defines no such class, so the import fails and `iniciar_drivers` starts
the `MockDriverProcess` fallback (which performs no communication) instead
of the concrete Modbus worker that `driver/modbus_driver_process.py` does
define.  Scenario S1 therefore cannot show the device connected with the
register value. -/
theorem C3_modbus_tcp_usa_mock :
    selecionar_classe_driver "modbus_tcp" = DriverClasse.MockDriverProcess ∧
    importClasse "driver.mqtt_driver_process" "ModbusDriverProcess" = none ∧
    importClasse "driver.modbus_driver_process" "ModbusDriverProcess" =
      some DriverClasse.ModbusDriverProcess := by
  refine ⟨?_, by decide, by decide⟩
  decide

/-! ## Claim C4 — what the enqueue paths actually validate -/

/-- C4 counterexample: tag `t1` is configured non-writable, yet
`escrever_valor_tag` places its command on the queue (the writable flag is
not consulted before enqueue), and a batch write of two columns is
enqueued with no call to the policy gate at all. -/
theorem C4_contraexemplo_validacoes :
    tagNaoEscrevivel.escrita_permitida = false ∧
    (escrever_valor_tag validar_escrita sistemaComT1 "t1" (.vInt 5)).enqueued = true ∧
    (escrever_lote_driver sistemaComT1 "d1"
        [("c1", .vInt 1), ("c2", .vInt 2)]).gate_calls = [] ∧
    (escrever_lote_driver sistemaComT1 "d1"
        [("c1", .vInt 1), ("c2", .vInt 2)]).retorno = true :=
  ⟨rfl, rfl, rfl, rfl⟩

/-- C4 amended: the single-tag path applies the policy gate after routing
and before enqueue — a command is enqueued only when the gate permits, and
a gate reject leaves every queue unchanged — but the tag's writable flag
is not validated at enqueue time (the driver worker checks it when the
command is dequeued); the batch path never invokes the policy gate for any
contained column. -/
theorem C4_portao_apenas_caminho_unitario (gate : String → Val → Validacao)
    (sistema : SistemaPrincipal) (tag_id : String) (valor : Val) :
    ((escrever_valor_tag gate sistema tag_id valor).enqueued = true →
      (escrever_valor_tag gate sistema tag_id valor).gate_calls = [(tag_id, valor)] ∧
      (gate tag_id valor).permitido = true) ∧
    ((gate tag_id valor).permitido = false →
      (escrever_valor_tag gate sistema tag_id valor).enqueued = false ∧
      (escrever_valor_tag gate sistema tag_id valor).write_queues =
        sistema.write_queues) ∧
    (∀ (driver_id : String) (valores : List (String × Val)),
      (escrever_lote_driver sistema driver_id valores).gate_calls = []) := by
  refine ⟨?_, ?_, ?_⟩
  · intro h
    unfold escrever_valor_tag at h ⊢
    rcases hm : alistGet sistema.tag_map tag_id with _ | driver_id
    · simp [hm] at h
    · simp only [hm] at h ⊢
      by_cases hd : driver_id = ""
      · simp [hd] at h
      · simp only [hd, if_false] at h ⊢
        by_cases hp : (gate tag_id valor).permitido = false
        · simp [hp] at h
        · simp only [hp, if_false] at h ⊢
          rcases hq : alistGet sistema.write_queues driver_id with _ | fila <;>
            simp_all
  · intro hp
    unfold escrever_valor_tag
    rcases hm : alistGet sistema.tag_map tag_id with _ | driver_id
    · exact ⟨rfl, rfl⟩
    · by_cases hd : driver_id = ""
      · simp [hd]
      · simp [hd, hp]
  · intro driver_id valores
    unfold escrever_lote_driver
    rcases hq : alistGet sistema.write_queues driver_id with _ | fila <;> rfl

/-! ## Claim C7 — `recent(n)` of the log bus -/

/-- C7 counterexample: `get_recent_logs` with limit 0 on a one-record
buffer returns that record — more than 0 records — because the Python
slice `[-0:]` is the whole list. -/
theorem C7_contraexemplo_limite_zero :
    ¬ ((get_recent_logs (some 0) [registroExemplo]).length ≤ 0) := by
  simp [get_recent_logs]

/-- C7 amended: for every limit n ≥ 1 and every buffer state,
`get_recent_logs` returns at most n records and the result is a contiguous
suffix of the buffer, hence in chronological (insertion) order; with limit
0 — like with no limit — it returns the entire buffer. -/
theorem C7_get_recent_logs_limite (n : Nat) (buf : List LogRecord) :
    (1 ≤ n → (get_recent_logs (some n) buf).length ≤ n ∧
      (get_recent_logs (some n) buf) <:+ buf) ∧
    get_recent_logs (some 0) buf = buf ∧
    get_recent_logs none buf = buf := by
  refine ⟨?_, by simp [get_recent_logs], rfl⟩
  intro hn
  have hne : n ≠ 0 := by omega
  simp only [get_recent_logs, hne, if_false]
  constructor
  · rw [List.length_drop]
    omega
  · exact List.drop_suffix _ _

/-- C7 amended, witness: the bound and suffix clause at limit 2 over a
three-record buffer, and the limit-0 clause over a one-record buffer. -/
theorem C7_get_recent_logs_limite_witness :
    (get_recent_logs (some 2)
        [registroExemplo, registroExemplo, registroExemplo]).length ≤ 2 ∧
    get_recent_logs (some 0) [registroExemplo] = [registroExemplo] :=
  ⟨((C7_get_recent_logs_limite 2
      [registroExemplo, registroExemplo, registroExemplo]).1 (by norm_num)).1,
   (C7_get_recent_logs_limite 0 [registroExemplo]).2.1⟩

/-! ## Claim C8 — Modbus access plans per data kind -/

/-- C8: float/real tags read exactly two consecutive holding registers and
decode them as the big-endian IEEE-754 word; their writes encode the word
big-endian into two registers and use the multiple-registers function
code; bool tags use a single coil and int16/uint16 tags a single holding
register, with the matching write function codes; and the big-endian
encode/decode pair is a bijection between register pairs and 32-bit
words. -/
theorem C8_modbus_tipos_de_acesso :
    (∀ addr : Int, 0 ≤ addr →
      modbus_read_plan addr "float" = .readHoldingRegisters addr.toNat 2 ∧
      modbus_read_plan addr "real" = .readHoldingRegisters addr.toNat 2 ∧
      modbus_read_plan addr "bool" = .readCoils addr.toNat 1 ∧
      modbus_read_plan addr "int16" = .readHoldingRegisters addr.toNat 1 ∧
      modbus_read_plan addr "uint16" = .readHoldingRegisters addr.toNat 1) ∧
    (∀ (addr : Nat) (b : Bool) (n : Int) (w : Nat),
      modbus_write_plan addr "float" b n w =
        .writeMultipleRegisters addr (modbus_encode_float w) ∧
      modbus_write_plan addr "real" b n w =
        .writeMultipleRegisters addr (modbus_encode_float w) ∧
      modbus_write_plan addr "bool" b n w = .writeSingleCoil addr b ∧
      modbus_write_plan addr "int16" b n w = .writeSingleRegister addr n ∧
      modbus_write_plan addr "uint16" b n w = .writeSingleRegister addr n) ∧
    (∀ r1 r2 : Nat, r1 < 65536 → r2 < 65536 →
      modbus_decode_float r1 r2 = r1 * 65536 + r2 ∧
      modbus_encode_float (modbus_decode_float r1 r2) = [r1, r2]) ∧
    (∀ w : Nat, w < 4294967296 →
      modbus_decode_float (w / 65536) (w % 65536) = w) := by
  refine ⟨?_, ?_, ?_, ?_⟩
  · intro addr h
    have hn : ¬ addr < 0 := by omega
    refine ⟨?_, ?_, ?_, ?_, ?_⟩ <;> simp [modbus_read_plan, hn]
  · intro addr b n w
    refine ⟨?_, ?_, ?_, ?_, ?_⟩ <;> simp [modbus_write_plan]
  · intro r1 r2 h1 h2
    unfold modbus_decode_float modbus_encode_float
    constructor
    · omega
    · rw [Nat.mod_eq_of_lt h1, Nat.mod_eq_of_lt h2]
      simp only [List.cons.injEq, and_true]
      constructor <;> omega
  · intro w hw
    unfold modbus_decode_float
    omega

/-- C8 witness: the theorem applied at address 40001 and at the register
pair of the bit pattern of 42.0f (0x4228, 0x0000). -/
theorem C8_modbus_tipos_de_acesso_witness :
    modbus_read_plan 40001 "float" = .readHoldingRegisters 40001 2 ∧
    modbus_encode_float (modbus_decode_float 16936 0) = [16936, 0] :=
  ⟨(C8_modbus_tipos_de_acesso.1 40001 (by norm_num)).1,
   (C8_modbus_tipos_de_acesso.2.2.1 16936 0 (by norm_num) (by norm_num)).2⟩

/-! ## Driver worker invariant -/

theorem InvDriver_step (cfg : List TagCfg) (s : DriverRunState) (e : DriverEvent)
    (h : InvDriver cfg s) : InvDriver cfg (driver_step cfg s e) := by
  obtain ⟨hA, hB, hC, hD, hE, hN⟩ := h
  obtain ⟨st, qs, ll, md⟩ := s
  dsimp only at hA hB hC hD hE hN
  cases md with
  | Init =>
    cases e with
    | startNoEndpoint =>
      dsimp only [driver_step]
      refine ⟨?_, ?_, ?_, ?_, ?_, ?_⟩
      · intro _
        exact ⟨marcar_todas_ruins_prop cfg qs hN hE, Or.inl rfl⟩
      · intro _
        exact ⟨marcar_todas_ruins_prop cfg qs hN hE, rfl⟩
      · intro _
        exact Or.inr rfl
      · intro hmd
        simp at hmd
      · exact marcar_todas_ruins_keys cfg qs hE
      · exact marcar_todas_ruins_nodup cfg qs hN
    | startOk =>
      dsimp only [driver_step]
      refine ⟨?_, hB, ?_, ?_, hE, hN⟩
      · intro hst
        obtain ⟨hr, hd⟩ := hA hst
        rcases hd with hmd | hll
        · exact absurd hmd (by decide)
        · exact ⟨hr, Or.inr hll⟩
      · intro hll
        rcases hC hll with hst | hmd
        · exact Or.inl hst
        · exact absurd hmd (by decide)
      · intro hmd
        simp at hmd
    | connectOk => exact ⟨hA, hB, hC, hD, hE, hN⟩
    | connectFail detalhe => exact ⟨hA, hB, hC, hD, hE, hN⟩
    | scanRead valores => exact ⟨hA, hB, hC, hD, hE, hN⟩
    | commFail => exact ⟨hA, hB, hC, hD, hE, hN⟩
  | Connecting =>
    cases e with
    | startNoEndpoint => exact ⟨hA, hB, hC, hD, hE, hN⟩
    | startOk => exact ⟨hA, hB, hC, hD, hE, hN⟩
    | connectOk =>
      dsimp only [driver_step]
      by_cases hll : ll ≠ some "conectado"
      · rw [if_pos hll]
        refine ⟨?_, ?_, ?_, ?_, hE, hN⟩
        · intro hst
          simp at hst
        · intro hld
          simp at hld
        · intro _
          exact Or.inl rfl
        · intro _
          exact rfl
      · rw [if_neg hll]
        have hlleq : ll = some "conectado" := not_ne_iff.mp hll
        have hst : st = "conectado" := by
          rcases hC hlleq with h1 | h2
          · exact h1
          · exact absurd h2 (by decide)
        refine ⟨?_, ?_, ?_, ?_, hE, hN⟩
        · intro hsd
          simp [hst] at hsd
        · intro hld
          simp [hlleq] at hld
        · intro _
          exact Or.inl hst
        · intro _
          exact hst
    | connectFail detalhe =>
      dsimp only [driver_step]
      by_cases hll : ll ≠ some "desconectado"
      · rw [if_pos hll]
        refine ⟨?_, ?_, ?_, ?_, ?_, ?_⟩
        · intro _
          exact ⟨marcar_todas_ruins_prop cfg qs hN hE, Or.inr rfl⟩
        · intro _
          exact ⟨marcar_todas_ruins_prop cfg qs hN hE, rfl⟩
        · intro hlc
          simp at hlc
        · intro hmd
          simp at hmd
        · exact marcar_todas_ruins_keys cfg qs hE
        · exact marcar_todas_ruins_nodup cfg qs hN
      · rw [if_neg hll]
        have hlleq : ll = some "desconectado" := not_ne_iff.mp hll
        obtain ⟨hr, hstd⟩ := hB hlleq
        refine ⟨?_, ?_, ?_, ?_, hE, hN⟩
        · intro _
          exact ⟨hr, Or.inr hlleq⟩
        · intro _
          exact ⟨hr, rfl⟩
        · intro hlc
          simp [hlleq] at hlc
        · intro hmd
          simp at hmd
    | scanRead valores => exact ⟨hA, hB, hC, hD, hE, hN⟩
    | commFail => exact ⟨hA, hB, hC, hD, hE, hN⟩
  | Scanning =>
    have hst : st = "conectado" := hD rfl
    cases e with
    | startNoEndpoint => exact ⟨hA, hB, hC, hD, hE, hN⟩
    | startOk => exact ⟨hA, hB, hC, hD, hE, hN⟩
    | connectOk => exact ⟨hA, hB, hC, hD, hE, hN⟩
    | connectFail detalhe => exact ⟨hA, hB, hC, hD, hE, hN⟩
    | scanRead valores =>
      dsimp only [driver_step]
      refine ⟨?_, ?_, ?_, ?_, ?_, ?_⟩
      · intro hsd
        simp [hst] at hsd
      · intro hld
        obtain ⟨_, hstd⟩ := hB hld
        rw [hst] at hstd
        exact absurd hstd (by decide)
      · intro _
        exact Or.inl hst
      · intro _
        exact hst
      · exact atualizar_qualidades_scan_keys cfg valores qs hE
      · exact atualizar_qualidades_scan_nodup cfg valores qs hN
    | commFail =>
      dsimp only [driver_step]
      refine ⟨?_, ?_, ?_, ?_, hE, hN⟩
      · intro hsd
        simp [hst] at hsd
      · intro hld
        obtain ⟨_, hstd⟩ := hB hld
        rw [hst] at hstd
        exact absurd hstd (by decide)
      · intro _
        exact Or.inl hst
      · intro hmd
        simp at hmd
  | Halted =>
    cases e with
    | startNoEndpoint => exact ⟨hA, hB, hC, hD, hE, hN⟩
    | startOk => exact ⟨hA, hB, hC, hD, hE, hN⟩
    | connectOk => exact ⟨hA, hB, hC, hD, hE, hN⟩
    | connectFail detalhe => exact ⟨hA, hB, hC, hD, hE, hN⟩
    | scanRead valores => exact ⟨hA, hB, hC, hD, hE, hN⟩
    | commFail => exact ⟨hA, hB, hC, hD, hE, hN⟩

theorem InvDriver_run (cfg : List TagCfg) (eventos : List DriverEvent) :
    InvDriver cfg (driver_run cfg eventos) := by
  have hinit : InvDriver cfg estado_inicial_driver := by
    refine ⟨?_, ?_, ?_, ?_, ?_, ?_⟩
    · intro hst
      exact absurd hst (by decide)
    · intro hll
      exact absurd hll (by decide)
    · intro hll
      exact absurd hll (by decide)
    · intro hmd
      exact absurd hmd (by decide)
    · intro p hp
      exact absurd hp (List.not_mem_nil p)
    · exact List.nodup_nil
  unfold driver_run
  have h : ∀ s, InvDriver cfg s →
      InvDriver cfg (eventos.foldl (driver_step cfg) s) := by
    induction eventos with
    | nil => exact fun s hs => hs
    | cons e es ih =>
      intro s hs
      simp only [List.foldl_cons]
      exact ih _ (InvDriver_step cfg s e hs)
  exact h estado_inicial_driver hinit

/-! ## Claim C5 — disconnect marks every tag bad -/

/-- C5: whenever the worker machine publishes `status_conexao` =
`desconectado` — in particular immediately after any transition into that
state — every published tag sample of that driver has quality `ruim`.
The marking happens in the same handling step as the transition (zero
scan intervals), which is within the one scan interval the claim
allows. -/
theorem C5_desconectado_implica_ruins (tags_config : List TagCfg)
    (eventos : List DriverEvent)
    (h : (driver_run tags_config eventos).status_conexao = "desconectado") :
    todas_ruins (driver_run tags_config eventos).qualidades :=
  ((InvDriver_run tags_config eventos).1 h).1

/-- C5 witness: a worker over one configured tag that starts and then
fails its first connection attempt is `desconectado` with the tag's
quality `ruim`. -/
theorem C5_desconectado_implica_ruins_witness :
    (driver_run [tagNaoEscrevivel]
      [.startOk, .connectFail "timeout"]).status_conexao = "desconectado" ∧
    todas_ruins (driver_run [tagNaoEscrevivel]
      [.startOk, .connectFail "timeout"]).qualidades :=
  ⟨rfl, C5_desconectado_implica_ruins [tagNaoEscrevivel]
    [.startOk, .connectFail "timeout"] rfl⟩

/-! ## Claim C6 — samples carry the id of the driver storing them -/

/-- C6: every `_update_shared_tags` (Modbus, ControlLogix, MQTT, SQL)
preserves the snapshot invariant that each stored tag sample's `id_driver`
equals the driver id under whose record it is stored: every sample it
writes carries its own driver id and goes under its own record. -/
theorem C6_amostras_pertencem_ao_driver (driver_id : String)
    (tags_config : List TagCfg) (now : String) (shared : SharedTags)
    (dados_lidos : List (String × DadosLido)) (h : donos_corretos shared) :
    donos_corretos
      (modbus_update_shared_tags driver_id tags_config now shared dados_lidos) ∧
    donos_corretos
      (controllogix_update_shared_tags driver_id tags_config now shared dados_lidos) ∧
    donos_corretos
      (mqtt_update_shared_tags driver_id tags_config now shared dados_lidos) ∧
    donos_corretos
      (sql_update_shared_tags driver_id tags_config now shared dados_lidos) := by
  refine ⟨?_, ?_, ?_, ?_⟩
  · unfold modbus_update_shared_tags
    rcases hg : alistGet shared driver_id with _ | current
    · exact h
    · refine donos_corretos_alistSet _ _ _ h ?_
      refine foldl_alistSet_forall (fun s => s.id_driver = driver_id)
        (fun p => p.1) (fun p => modbus_tag_status driver_id tags_config now p)
        dados_lidos (fun p => rfl) current ?_
      simpa using h (driver_id, current) (alistGet_mem _ _ _ hg)
  · unfold controllogix_update_shared_tags
    refine donos_corretos_alistSet _ _ _ h ?_
    exact foldl_alistSet_forall (fun s => s.id_driver = driver_id)
      (fun p => p.1) (fun p => controllogix_tag_status driver_id tags_config now p)
      dados_lidos (fun p => rfl) _ (donos_corretos_base shared driver_id h)
  · unfold mqtt_update_shared_tags
    refine donos_corretos_alistSet _ _ _ h ?_
    exact foldl_alistSet_forall (fun s => s.id_driver = driver_id)
      (fun p => mqtt_chave_armazenada tags_config p.1)
      (fun p => mqtt_tag_status driver_id tags_config now p)
      dados_lidos (fun p => rfl) _ (donos_corretos_base shared driver_id h)
  · unfold sql_update_shared_tags
    refine donos_corretos_alistSet _ _ _ h ?_
    exact foldl_alistSet_forall (fun s => s.id_driver = driver_id)
      (fun p => p.1) (fun p => sql_tag_status driver_id tags_config now p)
      dados_lidos (fun p => rfl) _ (donos_corretos_base shared driver_id h)

/-- C6 witness: the MQTT clause applied to an empty snapshot and one
received sample. -/
theorem C6_amostras_pertencem_ao_driver_witness :
    donos_corretos
      (mqtt_update_shared_tags "d1" [tagMqttExemplo] "2025-01-01 00:00:00" []
        [("sensor/temp", dadosLidoExemplo)]) :=
  (C6_amostras_pertencem_ao_driver "d1" [tagMqttExemplo] "2025-01-01 00:00:00" []
    [("sensor/temp", dadosLidoExemplo)]
    (fun p hp => absurd hp (List.not_mem_nil p))).2.2.1

/-! ## Claim C10 — MQTT tags-map key for a received message -/

/-- C10: when the MQTT worker records a received message, the sample lands
in the driver's tags map under the matched configured tag's id when some
configured tag has `endereco` (or id) equal to the topic — the match being
the first such tag in configuration order — and under the raw topic string
itself when no configured tag matches. -/
theorem C10_chave_de_mensagem_mqtt (driver_id : String)
    (tags_config : List TagCfg) (now : String) (shared : SharedTags)
    (topic : String) (valor : Option Val) :
    ((∀ t ∈ tags_config, t.endereco ≠ some topic ∧ t.id ≠ topic) →
      (alistGet
        ((alistGet (mqtt_process_message driver_id tags_config now shared topic valor)
          driver_id).getD [])
        topic).isSome = true) ∧
    (∀ t : TagCfg, mqtt_find_tag_config tags_config topic = some t →
      (alistGet
        ((alistGet (mqtt_process_message driver_id tags_config now shared topic valor)
          driver_id).getD [])
        t.id).isSome = true) := by
  constructor
  · intro h
    have hnone : mqtt_find_tag_config tags_config topic = none := by
      unfold mqtt_find_tag_config
      refine List.find?_eq_none.mpr ?_
      intro t ht
      have := h t ht
      simp only [Bool.or_eq_true, beq_iff_eq, not_or]
      exact ⟨this.1, this.2⟩
    have hchave : mqtt_chave_armazenada tags_config topic = topic := by
      unfold mqtt_chave_armazenada
      rw [hnone]
    unfold mqtt_process_message mqtt_update_shared_tags
    simp only [List.foldl_cons, List.foldl_nil]
    rw [alistGet_alistSet_self]
    simp only [Option.getD_some]
    rw [hchave, alistGet_alistSet_self]
    rfl
  · intro t ht
    have hchave : mqtt_chave_armazenada tags_config topic = t.id := by
      unfold mqtt_chave_armazenada
      rw [ht]
    unfold mqtt_process_message mqtt_update_shared_tags
    simp only [List.foldl_cons, List.foldl_nil]
    rw [alistGet_alistSet_self]
    simp only [Option.getD_some]
    rw [hchave, alistGet_alistSet_self]
    rfl

/-- C10 witness: the no-match clause at a topic no configured tag carries,
and the match clause at the topic of `tagMqttExemplo`, whose id differs
from the topic. -/
theorem C10_chave_de_mensagem_mqtt_witness :
    (alistGet
      ((alistGet (mqtt_process_message "d1" [tagMqttExemplo] "2025-01-01 00:00:00" []
        "outro/topico" (some (.vInt 7))) "d1").getD [])
      "outro/topico").isSome = true ∧
    (alistGet
      ((alistGet (mqtt_process_message "d1" [tagMqttExemplo] "2025-01-01 00:00:00" []
        "sensor/temp" (some (.vInt 7))) "d1").getD [])
      "tag_mqtt").isSome = true :=
  ⟨(C10_chave_de_mensagem_mqtt "d1" [tagMqttExemplo] "2025-01-01 00:00:00" []
      "outro/topico" (some (.vInt 7))).1
      (by
        intro t ht
        simp only [List.mem_singleton] at ht
        subst ht
        refine ⟨by decide, by decide⟩),
   (C10_chave_de_mensagem_mqtt "d1" [tagMqttExemplo] "2025-01-01 00:00:00" []
      "sensor/temp" (some (.vInt 7))).2 tagMqttExemplo (by decide)⟩

/-- C4 amended, witness: the gate-reject clause at a rejecting gate over a
concrete system, plus the batch clause at a concrete batch. -/
theorem C4_portao_apenas_caminho_unitario_witness :
    (escrever_valor_tag gateRecusa sistemaComT1 "t1" (.vInt 5)).enqueued = false ∧
    (escrever_lote_driver sistemaComT1 "d1" [("c1", .vInt 1)]).gate_calls = [] :=
  ⟨((C4_portao_apenas_caminho_unitario gateRecusa sistemaComT1 "t1" (.vInt 5)).2.1 rfl).1,
   (C4_portao_apenas_caminho_unitario gateRecusa sistemaComT1 "t1"
      (.vInt 5)).2.2 "d1" [("c1", .vInt 1)]⟩

end Inlogic
